import Mathlib

/-!
Shallow embedding of the scoring and confidence-adjustment pipeline of
`src/nlp.py` (email classification service).

Conventions of the embedding:
* Python floats are modelled as exact rationals (`ℚ`); every constant in the
  source is a short decimal, so all arithmetic is exact.
* Python strings are Lean `String`s; `str.split()`, `str.strip()`,
  `str.lower()`, substring membership (`in`) and slicing are re-implemented
  below with Python semantics (ASCII case folding, ASCII whitespace).
* The module-level globals of `nlp.py` (`pipeline`, `genai_client`, the
  stop-word set and the stemmer, each of which is environment dependent with
  an in-file fallback) become explicit parameters: an `Option` for the two
  optional collaborators, and plain arguments for the stop words / stemmer.
* A Python expression that can raise is modelled with `Option`/`Except`:
  `calculate_content_confidence_boost` divides by `len(email_text)` when
  `word_count > 0`, and `generate_reply` divides by `classification_score`
  in a diagnostic f-string, so those are the `none`/`.error` cases.
-/

namespace EmailNlp

/-- ASCII whitespace recognised by Python's `str.split()` / `str.strip()`. -/
def pyIsSpace (c : Char) : Bool :=
  c = ' ' || c = '\t' || c = '\n' || c = '\r' || c = '\x0b' || c = '\x0c'

/-- Python `str.lower()` (ASCII case folding; all inputs used by the claims
are ASCII-cased). -/
def pyLower (s : String) : String :=
  String.mk (s.data.map Char.toLower)

/-- Python `str.strip()` : drop leading and trailing whitespace. -/
def pyStrip (s : String) : String :=
  String.mk (((s.data.dropWhile pyIsSpace).reverse.dropWhile pyIsSpace).reverse)

/-- Worker for `pySplit`: `acc` holds the current word, reversed. -/
def splitAux : List Char → List Char → List (List Char)
  | [], acc => if acc = [] then [] else [acc.reverse]
  | c :: cs, acc =>
    if pyIsSpace c then
      if acc = [] then splitAux cs [] else acc.reverse :: splitAux cs []
    else
      splitAux cs (c :: acc)

/-- Python `str.split()` with no separator: split on whitespace runs,
discarding empty pieces. -/
def pySplit (s : String) : List String :=
  (splitAux s.data []).map String.mk

/-- Python `sep.join(ws)`. -/
def pyJoin (sep : String) : List String → String
  | [] => ""
  | [w] => w
  | w :: x :: ws => w ++ sep ++ pyJoin sep (x :: ws)

/-- Python slicing `s[:n]` (by characters). -/
def pyTake (s : String) (n : Nat) : String :=
  String.mk (s.data.take n)

/-- `isPrefixL a b` : the list `a` is a prefix of `b`. -/
def isPrefixL : List Char → List Char → Bool
  | [], _ => true
  | _ :: _, [] => false
  | a :: as, b :: bs => a = b && isPrefixL as bs

/-- `subListB sub l` : `sub` occurs as a contiguous sublist of `l`. -/
def subListB (sub : List Char) : List Char → Bool
  | [] => isPrefixL sub []
  | c :: cs => isPrefixL sub (c :: cs) || subListB sub cs

/-- Python substring membership `sub in s`. -/
def pyContains (s sub : String) : Bool :=
  subListB sub.data s.data

/-- Python `s.count(c)` for a single character. -/
def pyCountChar (s : String) (c : Char) : Nat :=
  (s.data.filter (· = c)).length

/-- `max(0.0, min(x, 1.0))` as used on the adjusted score. -/
def clamp01 (x : ℚ) : ℚ := max 0 (min x 1)

/-- The fallback Portuguese stop-word list hard-coded in `nlp.py`
(used when the NLTK corpus is unavailable). -/
def fallback_stop_words : List String :=
  ["de", "da", "do", "em", "um", "uma", "para", "com", "é", "e", "o", "a",
   "os", "as", "no", "na", "por", "se", "que", "ao", "à", "este", "esse",
   "aquele"]

/-- The `_DummyStemmer` fallback of `nlp.py`: the identity transform. -/
def dummy_stem : String → String := id

/-- Result record of `preprocess_text`. -/
structure NormalizedText where
  original_text : String
  clean_text : String
  token_count : Nat
  word_count : Nat
  deriving Repr, DecidableEq

/-- `preprocess_text` of `nlp.py`, parametrised by the stop-word set and the
stemmer (module globals in the source, environment dependent). -/
def preprocess_text (stop_words : List String) (stem : String → String)
    (text : String) : NormalizedText :=
  if text = "" then ⟨"", "", 0, 0⟩
  else
    let t := pyStrip (pyLower text)
    let words := pySplit t
    let filtered_words :=
      (words.filter (fun w => !stop_words.contains w && 2 < w.length)).map stem
    let clean_text := pyJoin " " filtered_words
    ⟨t, clean_text, filtered_words.length, words.length⟩

/-- The `productive_keywords` set of the heuristic branch of `classify_text`. -/
def productive_keywords : List String :=
  ["urgente", "suporte", "erro", "bug", "problema", "solicitação",
   "informação", "status", "dúvida", "questão", "reunião", "aprovação",
   "acesso", "integração", "implementação", "feedback", "relatório",
   "correção", "alteração", "backup", "dados", "projeto", "prazo"]

/-- Number of words of the clean text that are productive keywords
(`sum(1 for word in words if word in productive_keywords)`). -/
def productiveCount (words : List String) : Nat :=
  (words.filter (fun w => productive_keywords.contains w)).length

/-- The word-count/keyword banding of the heuristic branch of
`classify_text` (the code after the `pipeline` attempt). -/
def heuristic_classify (words : List String) : String × ℚ :=
  let word_count := words.length
  let productive_count := productiveCount words
  if word_count < 30 then ("Improdutivo", 0.2)
  else if word_count < 50 then
    if 2 ≤ productive_count then ("Produtivo", 0.5) else ("Improdutivo", 0.3)
  else if word_count < 100 then
    if productive_count = 0 then ("Improdutivo", 0.4) else ("Produtivo", 0.6)
  else if word_count < 200 then
    if productive_count = 0 then ("Improdutivo", 0.6) else ("Produtivo", 0.75)
  else
    if productive_count = 0 then ("Produtivo", 0.7) else ("Produtivo", 0.9)

/-- A trained model (`pipeline`): on a clean text it yields
`(prediction, probabilities)`, or `none` when the invocation raises
(the `except` of the source falls back to the heuristic). -/
def ModelFn : Type := String → Option (Int × List ℚ)

/-- The body of the `try` on the model path of `classify_text`:
`category = "Produtivo" iff prediction == 1`,
`confidence = min(float(max(probabilities)), max_confidence)`.
`max` of an empty probability list raises, i.e. gives `none`. -/
def modelTry (m : ModelFn) (clean_text : String) (max_confidence : ℚ) :
    Option (String × ℚ) :=
  match m clean_text with
  | none => none
  | some (prediction, probabilities) =>
    match probabilities with
    | [] => none
    | p :: ps =>
      some (if prediction = 1 then "Produtivo" else "Improdutivo",
            min (ps.foldl max p) max_confidence)

/-- `classify_text` of `nlp.py`, with the global `pipeline` as an explicit
`Option ModelFn` parameter. -/
def classify_text (model : Option ModelFn) (clean_text : String) :
    String × ℚ :=
  if clean_text = "" ∨ (pyStrip clean_text).length = 0 then ("Improdutivo", 0)
  else
    let words := pySplit clean_text
    let word_count := words.length
    if word_count < 3 then ("Improdutivo", 0.1)
    else
      let max_confidence : ℚ :=
        if word_count < 50 then 0.6
        else if word_count < 100 then 0.7
        else if word_count < 200 then 0.85
        else 1
      match model with
      | some m =>
        match modelTry m clean_text max_confidence with
        | some r => r
        | none => heuristic_classify words
      | none => heuristic_classify words

/-- The `professional_words` set checked against the subject line. -/
def professional_words : List String :=
  ["urgente", "suporte", "erro", "problema", "solicitação",
   "informação", "status", "dúvida", "reunião", "aprovação",
   "projeto", "prazo", "contato", "feedback", "relatório"]

/-- The corporate-indicator substrings checked against the email address. -/
def corporate_domains : List String := ["empresa", "company", "corp", "inc"]

/-- `calculate_subject_confidence_boost` of `nlp.py`: a multiplier derived
from the subject line and sender data, clamped to `[0.5, 1.5]`.
The `print` diagnostics of the source are side effects only and are omitted. -/
def calculate_subject_confidence_boost (user_subject : String)
    (user_name : String := "") (user_email : String := "") : ℚ :=
  let boost : ℚ := 1
  let boost :=
    if user_subject = "" ∨ pyStrip user_subject = "" then boost - 0.05
    else if user_subject.length < 5 then boost - 0.1
    else if 100 < user_subject.length then boost - 0.05
    else if professional_words.any (fun w => pyContains (pyLower user_subject) w)
      then boost + 0.15
    else boost
  let boost :=
    if user_name ≠ "" ∧ 3 < user_name.length then boost + 0.1 else boost
  let boost :=
    if user_email ≠ "" then
      if pyContains user_email "@" ∧ pyContains user_email "." then
        if pyContains user_email "gmail.com" ∨ pyContains user_email "hotmail.com"
            ∨ pyContains user_email "yahoo.com" then boost + 0.05
        else if corporate_domains.any (fun d => pyContains user_email d) then
          boost + 0.2
        else boost
      else boost - 0.15
    else boost
  max 0.5 (min boost 1.5)

/-- The `professional_keywords` set checked against the email body. -/
def professional_keywords : List String :=
  ["urgente", "suporte", "erro", "bug", "problema", "solicitação",
   "informação", "status", "dúvida", "questão", "reunião", "aprovação",
   "acesso", "integração", "implementação", "feedback", "relatório",
   "correção", "alteração", "backup", "dados", "projeto", "prazo",
   "ajuda", "assistência", "necessário", "importante", "atenção"]

/-- `calculate_content_confidence_boost` of `nlp.py`: a multiplier derived
from the body text, clamped to `[0.5, 1.5]`.  The result is `none` exactly
when the source raises: `caps_count / len(email_text)` divides by zero when
`word_count > 0` but the text is empty. -/
def calculate_content_confidence_boost (email_text : String)
    (word_count : Int) : Option ℚ :=
  let boost : ℚ := 1
  let boost :=
    if word_count < 20 then boost - 0.15
    else if 500 < word_count then boost - 0.05
    else boost + 0.05
  if 0 < word_count ∧ email_text.length = 0 then none
  else
    let caps_count := (email_text.data.filter Char.isUpper).length
    let boost :=
      if 0 < word_count ∧
          (0.3 : ℚ) < (caps_count : ℚ) / (email_text.length : ℚ) then
        boost - 0.2
      else boost
    let question_count := pyCountChar email_text '?'
    let exclamation_count := pyCountChar email_text '!'
    let boost := if 2 < question_count then boost + 0.1 else boost
    let boost := if 5 < exclamation_count then boost - 0.1 else boost
    let prof_count :=
      (professional_keywords.filter
        (fun w => pyContains (pyLower email_text) w)).length
    let boost := if 3 ≤ prof_count then boost + 0.15 else boost
    some (max 0.5 (min boost 1.5))

/-- Result record of `generate_reply` (the source serialises it to JSON;
the serialisation is not modelled). -/
structure ReplyResult where
  category : String
  score : ℚ
  reply : String
  deriving Repr, DecidableEq

/-- The external reply generator (`genai_client` + Gemini call): from the
prompt it yields a reply text, or `none` when the call raises (the inner
`except` falls back to the template). -/
def GenFn : Type := String → Option String

/-- The f-string prompt assembled by `generate_reply`. -/
def build_prompt (email_text category user_name user_email user_subject :
    String) : String :=
  "Você é um assistente de suporte corporativo profissional e atencioso.\n\n" ++
  "Dados do email recebido:\n" ++
  "- Remetente: " ++ (if user_name ≠ "" then user_name else "Não informado") ++
  "\n- Email: " ++ (if user_email ≠ "" then user_email else "Não informado") ++
  "\n- Assunto: " ++ (if user_subject ≠ "" then user_subject else "Sem assunto") ++
  "\n- Corpo: " ++ pyTake email_text 300 ++
  "\n\nCategoria detectada: " ++ category ++
  "\n\nGere uma resposta profissional, personalizada e concisa (máximo 6 linhas) que:\n" ++
  "1. Cumprimente o remetente pelo nome (se fornecido)\n" ++
  "2. Reconheça o assunto/conteúdo\n" ++
  "3. Forneça orientação apropriada\n" ++
  "4. Ofereça disponibilidade\n\n" ++
  "Não adicione explicações, apenas a resposta."

/-- `_get_template_reply` of `nlp.py`: the deterministic fallback reply. -/
def get_template_reply (category : String) (user_name : String := "")
    (user_subject : String := "") (email_text : String := "") : String :=
  let greeting :=
    if user_name ≠ "" then "Prezado(a) " ++ user_name else "Prezado(a)"
  let content_preview :=
    if email_text ≠ "" then pyTake email_text 50 else "(sem conteúdo)"
  let word_count := if email_text ≠ "" then (pySplit email_text).length else 0
  let content_char :=
    if word_count < 30 then "é bastante breve"
    else if word_count < 80 then "é concisa"
    else if word_count < 200 then "é detalhada"
    else "é muito completa"
  let subject_text :=
    if user_subject ≠ "" then "\x27" ++ user_subject ++ "\x27"
    else "(sem assunto)"
  if category = "Produtivo" then
    greeting ++ ", Agradecemos o seu contato. Recebemos seu e-mail com o assunto " ++
    subject_text ++ ", porém o conteúdo da mensagem (\x27" ++ content_preview ++
    "\x27) " ++ content_char ++
    ". Para que possamos dar o devido encaminhamento, poderia nos fornecer mais informações? Permanecemos à disposição."
  else
    greeting ++ ", Agradecemos o seu contato sobre " ++ subject_text ++
    ". Recebemos sua mensagem (\x27" ++ content_preview ++
    "\x27) e valorizamos sua consideração. Sua contribuição é importante para nós. Muito obrigado e continue contando conosco."

/-- The fixed result of the `except` handler of `generate_reply`. -/
def error_reply : ReplyResult :=
  ⟨"Erro", 0, "Erro ao gerar resposta automatica."⟩

/-- The body of the `try` of `generate_reply` (everything before the
`except`).  `.error ()` marks the points where the body raises:
the content-boost division, and the diagnostic f-string
`(adjusted_score - classification_score)/classification_score` which
divides by zero when the raw score is `0`. -/
def generate_reply_body (gen : Option GenFn) (email_text category : String)
    (user_name : String := "") (user_email : String := "")
    (user_subject : String := "") (classification_score : ℚ := 0.5) :
    Except Unit ReplyResult :=
  let subject_boost :=
    calculate_subject_confidence_boost user_subject user_name user_email
  let word_count : Int := ((pySplit email_text).length : Int)
  match calculate_content_confidence_boost email_text word_count with
  | none => .error ()
  | some content_boost =>
    let final_multiplier := subject_boost * 0.4 + content_boost * 0.6
    let adjusted_score := clamp01 (classification_score * final_multiplier)
    if classification_score = 0 then .error ()
    else
      let prompt :=
        build_prompt email_text category user_name user_email user_subject
      let reply_text :=
        match gen with
        | some g =>
          match g prompt with
          | some t => pyStrip t
          | none => get_template_reply category user_name user_subject email_text
        | none => get_template_reply category user_name user_subject email_text
      .ok ⟨category, adjusted_score, reply_text⟩

/-- `generate_reply` of `nlp.py` (with the global `genai_client` as an
explicit parameter): the `try` body guarded by the `except` handler, which
degrades every internal failure to `error_reply`. -/
def generate_reply (gen : Option GenFn) (email_text category : String)
    (user_name : String := "") (user_email : String := "")
    (user_subject : String := "") (classification_score : ℚ := 0.5) :
    ReplyResult :=
  match generate_reply_body gen email_text category user_name user_email
      user_subject classification_score with
  | .ok r => r
  | .error _ => error_reply

/-- Modelled from the spec: the claimed heuristic band table, written from
the claim's words ("word count <30 gives (Unproductive, 0.20) regardless of
keywords; 30–49 gives (Productive, 0.50) iff at least 2 productive keywords
else (Unproductive, 0.30); ..."), to be compared with the source's
`heuristic_classify`.  Categories use the source's Portuguese strings
(Productive = "Produtivo", Unproductive = "Improdutivo"). -/
def spec_band_table (words : List String) : String × ℚ :=
  let wc := words.length
  let kn := productiveCount words
  if wc < 30 then ("Improdutivo", 0.2)
  else if wc ≤ 49 then
    if 2 ≤ kn then ("Produtivo", 0.5) else ("Improdutivo", 0.3)
  else if wc ≤ 99 then
    if 1 ≤ kn then ("Produtivo", 0.6) else ("Improdutivo", 0.4)
  else if wc ≤ 199 then
    if 1 ≤ kn then ("Produtivo", 0.75) else ("Improdutivo", 0.6)
  else
    ("Produtivo", if 1 ≤ kn then 0.9 else 0.7)

/-! ### Helper lemmas -/

lemma splitAux_all_space (l : List Char) (h : ∀ c ∈ l, pyIsSpace c) :
    splitAux l [] = [] := by
  induction l with
  | nil => rfl
  | cons c cs ih =>
    have hc : pyIsSpace c := h c (by simp)
    simp only [splitAux, hc, if_true, if_pos rfl]
    exact ih (fun x hx => h x (by simp [hx]))

lemma all_space_of_pyStrip_len_zero (s : String)
    (h : (pyStrip s).length = 0) : ∀ c ∈ s.data, pyIsSpace c := by
  have hlen : (((s.data.dropWhile pyIsSpace).reverse.dropWhile
      pyIsSpace).reverse).length = 0 := h
  have hnil : ((s.data.dropWhile pyIsSpace).reverse.dropWhile
      pyIsSpace).reverse = [] := List.eq_nil_of_length_eq_zero hlen
  rw [List.reverse_eq_nil_iff] at hnil
  have h2 : ∀ x ∈ (s.data.dropWhile pyIsSpace).reverse, pyIsSpace x :=
    List.dropWhile_eq_nil_iff.mp hnil
  have h3 : ∀ x ∈ s.data.dropWhile pyIsSpace, pyIsSpace x := by
    intro x hx; exact h2 x (List.mem_reverse.mpr hx)
  intro c hc
  rw [← List.takeWhile_append_dropWhile (p := pyIsSpace) (l := s.data)] at hc
  rcases List.mem_append.mp hc with h4 | h4
  · exact List.mem_takeWhile_imp h4
  · exact h3 c h4

lemma not_empty_of_pySplit_ne_nil (s : String) (h : pySplit s ≠ []) :
    ¬(s = "" ∨ (pyStrip s).length = 0) := by
  rintro (rfl | hz)
  · exact h rfl
  · exact h (by
      show (splitAux s.data []).map String.mk = []
      rw [splitAux_all_space s.data (all_space_of_pyStrip_len_zero s hz)]
      rfl)

lemma splitAux_word (w : List Char) (l acc : List Char)
    (hw : ∀ c ∈ w, ¬ pyIsSpace c) :
    splitAux (w ++ l) acc = splitAux l (w.reverse ++ acc) := by
  induction w generalizing acc with
  | nil => simp
  | cons c cs ih =>
    have hc : ¬ pyIsSpace c = true := hw c (by simp)
    simp only [List.cons_append, splitAux, hc, if_neg, Bool.false_eq_true,
      if_false, List.append_eq]
    rw [ih _ (fun x hx => hw x (by simp [hx]))]
    simp [List.append_assoc]

lemma pySplit_pyJoin (ws : List String)
    (h : ∀ w ∈ ws, w.data ≠ [] ∧ ∀ c ∈ w.data, ¬ pyIsSpace c) :
    pySplit (pyJoin " " ws) = ws := by
  induction ws with
  | nil => rfl
  | cons w rest ih =>
    cases rest with
    | nil =>
      obtain ⟨hne, hns⟩ := h w (by simp)
      show (splitAux (pyJoin " " [w]).data []).map String.mk = [w]
      have : (pyJoin " " [w]).data = w.data ++ [] := by simp [pyJoin]
      rw [this, splitAux_word w.data [] [] hns]
      simp only [splitAux, List.append_nil, List.reverse_eq_nil_iff]
      rw [if_neg hne]
      simp
    | cons x rest' =>
      obtain ⟨hne, hns⟩ := h w (by simp)
      have ihh : pySplit (pyJoin " " (x :: rest')) = x :: rest' :=
        ih (fun v hv => h v (by simp [hv]))
      show (splitAux (pyJoin " " (w :: x :: rest')).data []).map String.mk
        = w :: x :: rest'
      have hdata : (pyJoin " " (w :: x :: rest')).data
          = w.data ++ (' ' :: (pyJoin " " (x :: rest')).data) := by
        show (w ++ " " ++ pyJoin " " (x :: rest')).data = _
        simp [String.data_append]
      rw [hdata, splitAux_word w.data _ [] hns]
      simp only [List.append_nil, splitAux, pyIsSpace]
      rw [if_pos (by simp), if_neg (by simpa using hne)]
      simp only [List.map_cons, List.reverse_reverse]
      have hrest : (splitAux (pyJoin " " (x :: rest')).data []).map String.mk
          = x :: rest' := ihh
      rw [hrest]

lemma clamp_bds {b lo hi : ℚ} (hlo : (0.5 : ℚ) ≤ lo) (hhi : hi ≤ 1.5)
    (h : lo ≤ b ∧ b ≤ hi) :
    lo ≤ max 0.5 (min b 1.5) ∧ max 0.5 (min b 1.5) ≤ hi := by
  constructor
  · calc lo ≤ b := h.1
      _ = min b 1.5 := (min_eq_left (le_trans h.2 hhi)).symm
      _ ≤ max 0.5 (min b 1.5) := le_max_right _ _
  · exact max_le (le_trans hlo (le_trans h.1 h.2))
      (le_trans (min_le_left _ _) h.2)

set_option maxHeartbeats 2000000 in
lemma subject_boost_bounds (s n e : String) :
    0.75 ≤ calculate_subject_confidence_boost s n e ∧
    calculate_subject_confidence_boost s n e ≤ 1.45 := by
  simp only [calculate_subject_confidence_boost]
  refine clamp_bds (by norm_num) (by norm_num) ?_
  split_ifs <;> constructor <;> norm_num

set_option maxHeartbeats 2000000 in
lemma content_boost_bounds (t : String) (w : Int) (cb : ℚ)
    (h : calculate_content_confidence_boost t w = some cb) :
    0.55 ≤ cb ∧ cb ≤ 1.3 := by
  simp only [calculate_content_confidence_boost] at h
  split at h
  · exact absurd h (by simp)
  · rw [Option.some_inj] at h
    rw [← h]
    refine clamp_bds (by norm_num) (by norm_num) ?_
    split_ifs <;> constructor <;> norm_num

lemma heuristic_eq_spec_band (ws : List String) :
    heuristic_classify ws = spec_band_table ws := by
  simp only [heuristic_classify, spec_band_table]
  split_ifs <;> first | rfl | omega

/-! ### Claim theorems -/

/-- Claim C1: for every raw score and every content-boost value produced by
the booster, the orchestrator's final score equals
`clamp(raw_score * (subject_boost*0.4 + content_boost*0.6), 0, 1)`, and
hence always lies in `[0, 1]`.  This holds on the exception path too: the
body only raises when `raw_score = 0`, and the error result's score `0`
coincides with the clamped product there. -/
theorem generate_reply_adjusted_score_clamped (gen : Option GenFn)
    (t cat n e subj : String) (raw cb : ℚ)
    (hcb : calculate_content_confidence_boost t ((pySplit t).length : Int)
      = some cb) :
    (generate_reply gen t cat n e subj raw).score
      = clamp01 (raw * (calculate_subject_confidence_boost subj n e * 0.4
          + cb * 0.6))
    ∧ 0 ≤ (generate_reply gen t cat n e subj raw).score
    ∧ (generate_reply gen t cat n e subj raw).score ≤ 1 := by
  have hmain : (generate_reply gen t cat n e subj raw).score
      = clamp01 (raw * (calculate_subject_confidence_boost subj n e * 0.4
          + cb * 0.6)) := by
    simp only [generate_reply, generate_reply_body]
    rw [hcb]
    by_cases hr : raw = 0
    · simp only [if_pos hr]
      subst hr
      simp [error_reply, clamp01]
    · simp only [if_neg hr]
  refine ⟨hmain, ?_, ?_⟩
  · rw [hmain]; exact le_max_left 0 _
  · rw [hmain]; exact max_le (by norm_num) (min_le_right _ _)

/-- Witness for C1 at a concrete input. -/
theorem generate_reply_adjusted_score_clamped_witness :
    calculate_content_confidence_boost "a b c"
        ((pySplit "a b c").length : Int) = some 0.85 ∧
    ((generate_reply none "a b c" "Produtivo" "" "" "" 0.5).score
      = clamp01 (0.5 * (calculate_subject_confidence_boost "" "" "" * 0.4
          + 0.85 * 0.6))
     ∧ 0 ≤ (generate_reply none "a b c" "Produtivo" "" "" "" 0.5).score
     ∧ (generate_reply none "a b c" "Produtivo" "" "" "" 0.5).score ≤ 1) :=
  ⟨by with_unfolding_all rfl,
   generate_reply_adjusted_score_clamped none "a b c" "Produtivo" "" "" ""
     0.5 0.85 (by with_unfolding_all rfl)⟩

/-- Claim C2: with no trained model (`pipeline = none`) and at least 3
whitespace tokens in the clean text, `classify_text` returns exactly the
banded (category, score) pairs of the spec's table (`spec_band_table`,
written from the claim's words). -/
theorem classify_text_matches_spec_band_table (ct : String)
    (h3 : 3 ≤ (pySplit ct).length) :
    classify_text none ct = spec_band_table (pySplit ct) := by
  have hnil : pySplit ct ≠ [] := by
    intro hn; rw [hn] at h3; simp at h3
  have hne := not_empty_of_pySplit_ne_nil ct hnil
  simp only [classify_text]
  rw [if_neg hne, if_neg (by omega)]
  exact heuristic_eq_spec_band _

/-- Witness for C2 at a concrete input. -/
theorem classify_text_matches_spec_band_table_witness :
    3 ≤ (pySplit "foo bar baz").length ∧
    classify_text none "foo bar baz"
      = spec_band_table (pySplit "foo bar baz") :=
  ⟨by decide, classify_text_matches_spec_band_table "foo bar baz" (by decide)⟩

/-- Claim C3: `generate_reply` never propagates an exception: for every
input it returns the `try` body's result when the body succeeds, and the
fixed `("Erro", 0.0, error text)` result when the body raises. -/
theorem generate_reply_never_raises (gen : Option GenFn)
    (t cat n e subj : String) (raw : ℚ) :
    (∃ r, generate_reply_body gen t cat n e subj raw = .ok r ∧
          generate_reply gen t cat n e subj raw = r) ∨
    (generate_reply_body gen t cat n e subj raw = .error () ∧
     generate_reply gen t cat n e subj raw
       = ⟨"Erro", 0, "Erro ao gerar resposta automatica."⟩) := by
  cases h : generate_reply_body gen t cat n e subj raw with
  | ok r =>
    exact Or.inl ⟨r, rfl, by simp only [generate_reply, h]⟩
  | error u =>
    cases u
    exact Or.inr ⟨rfl, by simp only [generate_reply, h, error_reply]⟩

/-- Counterexample for C4: neither booster ever attains the claimed extreme
values 0.5 or 1.5 — there is no "extreme adjustment" input reaching the
clamp's endpoints. -/
theorem boost_extremes_unreachable :
    (¬ ∃ s n e : String, calculate_subject_confidence_boost s n e = 0.5) ∧
    (¬ ∃ s n e : String, calculate_subject_confidence_boost s n e = 1.5) ∧
    (¬ ∃ (t : String) (w : Int) (cb : ℚ),
        calculate_content_confidence_boost t w = some cb ∧ cb = 0.5) ∧
    (¬ ∃ (t : String) (w : Int) (cb : ℚ),
        calculate_content_confidence_boost t w = some cb ∧ cb = 1.5) := by
  refine ⟨?_, ?_, ?_, ?_⟩
  · rintro ⟨s, n, e, h⟩
    have hb := (subject_boost_bounds s n e).1
    rw [h] at hb; norm_num at hb
  · rintro ⟨s, n, e, h⟩
    have hb := (subject_boost_bounds s n e).2
    rw [h] at hb; norm_num at hb
  · rintro ⟨t, w, cb, h, rfl⟩
    have hb := (content_boost_bounds t w _ h).1
    norm_num at hb
  · rintro ⟨t, w, cb, h, rfl⟩
    have hb := (content_boost_bounds t w _ h).2
    norm_num at hb

/-- Claim C4 as amended: both boosts always lie in `[0.5, 1.5]`, but the
endpoints 0.5 and 1.5 are never attained. -/
theorem boost_range_open_endpoints (s n e t : String) (w : Int) (cb : ℚ)
    (h : calculate_content_confidence_boost t w = some cb) :
    (0.5 ≤ calculate_subject_confidence_boost s n e ∧
     calculate_subject_confidence_boost s n e ≤ 1.5 ∧
     calculate_subject_confidence_boost s n e ≠ 0.5 ∧
     calculate_subject_confidence_boost s n e ≠ 1.5) ∧
    (0.5 ≤ cb ∧ cb ≤ 1.5 ∧ cb ≠ 0.5 ∧ cb ≠ 1.5) := by
  obtain ⟨h1, h2⟩ := subject_boost_bounds s n e
  obtain ⟨h3, h4⟩ := content_boost_bounds t w cb h
  refine ⟨⟨by linarith, by linarith, ?_, ?_⟩,
          ⟨by linarith, by linarith, ?_, ?_⟩⟩
  · intro hx; rw [hx] at h1; norm_num at h1
  · intro hx; rw [hx] at h2; norm_num at h2
  · intro hx; rw [hx] at h3; norm_num at h3
  · intro hx; rw [hx] at h4; norm_num at h4

/-- Witness for the amended C4 at a concrete input. -/
theorem boost_range_open_endpoints_witness :
    calculate_content_confidence_boost "" 0 = some 0.85 ∧
    ((0.5 ≤ calculate_subject_confidence_boost "" "" "" ∧
      calculate_subject_confidence_boost "" "" "" ≤ 1.5 ∧
      calculate_subject_confidence_boost "" "" "" ≠ 0.5 ∧
      calculate_subject_confidence_boost "" "" "" ≠ 1.5) ∧
     (0.5 ≤ (0.85 : ℚ) ∧ (0.85 : ℚ) ≤ 1.5 ∧ (0.85 : ℚ) ≠ 0.5 ∧
      (0.85 : ℚ) ≠ 1.5)) :=
  ⟨by with_unfolding_all rfl,
   boost_range_open_endpoints "" "" "" "" 0 0.85 (by with_unfolding_all rfl)⟩

/-- Counterexample for C5: normalizing and classifying the Scenario A input
gives Improdutivo (Unproductive), not Produtivo as claimed — the heuristic's
under-30-words band fires (the text has 5 surviving tokens). -/
theorem scenario_a_not_productive :
    classify_text none ((preprocess_text fallback_stop_words dummy_stem
      "Preciso de suporte urgente com erro no sistema").clean_text)
      = ("Improdutivo", 0.2) ∧ ("Improdutivo" : String) ≠ "Produtivo" :=
  ⟨by with_unfolding_all rfl, by decide⟩

/-- Claim C5 as amended: on the heuristic path, normalizing the Scenario A
input and classifying the clean text yields category Improdutivo with
raw score 0.2 (which is > 0) — for every stemmer whose stems of the five
surviving tokens are nonempty and whitespace-free (the RSLP stemmer and the
source's identity fallback both are). -/
theorem scenario_a_improdutivo (f : String → String)
    (hf : ∀ w ∈ (["preciso", "suporte", "urgente", "erro", "sistema"] :
        List String), (f w).data ≠ [] ∧ ∀ c ∈ (f w).data, ¬ pyIsSpace c) :
    classify_text none ((preprocess_text fallback_stop_words f
      "Preciso de suporte urgente com erro no sistema").clean_text)
      = ("Improdutivo", 0.2) := by
  have hclean : (preprocess_text fallback_stop_words f
      "Preciso de suporte urgente com erro no sistema").clean_text
      = pyJoin " " ((["preciso", "suporte", "urgente", "erro", "sistema"] :
          List String).map f) := by
    with_unfolding_all rfl
  rw [hclean]
  have hsplit : pySplit (pyJoin " "
      ((["preciso", "suporte", "urgente", "erro", "sistema"] :
        List String).map f))
      = (["preciso", "suporte", "urgente", "erro", "sistema"] :
        List String).map f := by
    refine pySplit_pyJoin _ ?_
    intro w hw
    obtain ⟨v, hv, rfl⟩ := List.mem_map.mp hw
    exact hf v hv
  have hnil : pySplit (pyJoin " "
      ((["preciso", "suporte", "urgente", "erro", "sistema"] :
        List String).map f)) ≠ [] := by
    rw [hsplit]; simp
  have hne := not_empty_of_pySplit_ne_nil _ hnil
  simp only [classify_text]
  rw [if_neg hne]
  rw [hsplit]
  rw [if_neg (by simp)]
  simp only [heuristic_classify]
  rw [if_pos (by simp)]

/-- Witness for the amended C5, instantiated with the source's fallback
stemmer. -/
theorem scenario_a_improdutivo_witness :
    (∀ w ∈ (["preciso", "suporte", "urgente", "erro", "sistema"] :
        List String), (dummy_stem w).data ≠ [] ∧
        ∀ c ∈ (dummy_stem w).data, ¬ pyIsSpace c) ∧
    classify_text none ((preprocess_text fallback_stop_words dummy_stem
      "Preciso de suporte urgente com erro no sistema").clean_text)
      = ("Improdutivo", 0.2) :=
  ⟨by decide, scenario_a_improdutivo dummy_stem (by decide)⟩

/-- Counterexample for C6: the whitespace-only clean text `" "` is a
non-empty string with fewer than 3 tokens, yet `classify_text` returns
score 0.0 (the empty/whitespace short-circuit), not the claimed 0.1. -/
theorem whitespace_text_not_score_point_one :
    (" " : String) ≠ "" ∧ (pySplit " ").length < 3 ∧
    classify_text none " " ≠ ("Improdutivo", 0.1) := by
  refine ⟨by decide, by decide, ?_⟩
  have h : classify_text none " " = ("Improdutivo", 0) := by
    with_unfolding_all rfl
  rw [h]
  intro hx
  have h2 := congrArg Prod.snd hx
  norm_num at h2

/-- Claim C6 as amended: for every clean text with at least one and fewer
than 3 whitespace tokens, `classify_text` returns (Improdutivo, 0.1),
for every model value (the rule fires before any model invocation). -/
theorem short_token_text_improdutivo (m : Option ModelFn) (ct : String)
    (h1 : 1 ≤ (pySplit ct).length) (h2 : (pySplit ct).length < 3) :
    classify_text m ct = ("Improdutivo", 0.1) := by
  have hnil : pySplit ct ≠ [] := by
    intro hn; rw [hn] at h1; simp at h1
  have hne := not_empty_of_pySplit_ne_nil ct hnil
  simp only [classify_text]
  rw [if_neg hne, if_pos h2]

/-- Witness for the amended C6 at a concrete input. -/
theorem short_token_text_improdutivo_witness :
    (1 ≤ (pySplit "foo bar").length ∧ (pySplit "foo bar").length < 3) ∧
    classify_text none "foo bar" = ("Improdutivo", 0.1) :=
  ⟨⟨by decide, by decide⟩,
   short_token_text_improdutivo none "foo bar" (by decide) (by decide)⟩

/-- Claim C7: for every empty or whitespace-only clean text,
`classify_text` returns (Improdutivo, 0.0), for every model value —
a well-defined default, with no model invocation. -/
theorem empty_clean_text_default_result (m : Option ModelFn) (ct : String)
    (h : ct = "" ∨ (pyStrip ct).length = 0) :
    classify_text m ct = ("Improdutivo", 0) := by
  simp only [classify_text]
  rw [if_pos h]

/-- Witness for C7 at the empty string. -/
theorem empty_clean_text_default_result_witness :
    classify_text none "" = ("Improdutivo", 0) :=
  empty_clean_text_default_result none "" (Or.inl rfl)

/-- Claim C8: for subject `""`, name `""`, email `"notanemail"`, the
subject/sender boost is exactly 0.80 (1.0 − 0.05 blank subject − 0.15
malformed email, unchanged by the clamp). -/
theorem scenario_d_subject_boost :
    calculate_subject_confidence_boost "" "" "notanemail" = 0.8 := by
  with_unfolding_all rfl

/-- Claim C9: on every non-exceptional run (the `try` body returns `ok`),
`generate_reply` returns exactly the body's result, whose category is the
category argument passed in — the booster only changes the score. -/
theorem generate_reply_category_preserved (gen : Option GenFn)
    (t cat n e subj : String) (raw : ℚ) (r : ReplyResult)
    (h : generate_reply_body gen t cat n e subj raw = .ok r) :
    generate_reply gen t cat n e subj raw = r ∧ r.category = cat := by
  refine ⟨by simp only [generate_reply]; rw [h], ?_⟩
  simp only [generate_reply_body] at h
  cases hcb : calculate_content_confidence_boost t
      ((pySplit t).length : Int) with
  | none => rw [hcb] at h; exact absurd h (by simp)
  | some cb =>
    rw [hcb] at h
    by_cases hr : raw = 0
    · simp only [if_pos hr] at h
      exact absurd h (by simp)
    · simp only [if_neg hr] at h
      injection h with h2
      rw [← h2]

/-- Witness for C9 at a concrete non-exceptional input. -/
theorem generate_reply_category_preserved_witness :
    (generate_reply none "a b c" "Produtivo" "" "" "" 0.5).category
      = "Produtivo" := by
  have h : generate_reply_body none "a b c" "Produtivo" "" "" "" 0.5
      = .ok ⟨"Produtivo", 0.445,
              get_template_reply "Produtivo" "" "" "a b c"⟩ := by
    with_unfolding_all rfl
  have h2 := generate_reply_category_preserved none "a b c" "Produtivo"
    "" "" "" 0.5 _ h
  rw [h2.1]

/-- Claim C10: the declared `[0.5, 1.5]` clamp never binds: every subject
boost lies in `[0.75, 1.45]` and every content boost in `[0.55, 1.30]`,
so the extremes 0.5 and 1.5 are unreachable. -/
theorem boost_tight_bounds (s n e t : String) (w : Int) (cb : ℚ)
    (h : calculate_content_confidence_boost t w = some cb) :
    (0.75 ≤ calculate_subject_confidence_boost s n e ∧
     calculate_subject_confidence_boost s n e ≤ 1.45) ∧
    (0.55 ≤ cb ∧ cb ≤ 1.3) :=
  ⟨subject_boost_bounds s n e, content_boost_bounds t w cb h⟩

/-- Witness for C10 at a concrete input. -/
theorem boost_tight_bounds_witness :
    calculate_content_confidence_boost "" 0 = some 0.85 ∧
    ((0.75 ≤ calculate_subject_confidence_boost "" "" "" ∧
      calculate_subject_confidence_boost "" "" "" ≤ 1.45) ∧
     (0.55 ≤ (0.85 : ℚ) ∧ (0.85 : ℚ) ≤ 1.3)) :=
  ⟨by with_unfolding_all rfl,
   boost_tight_bounds "" "" "" "" 0 0.85 (by with_unfolding_all rfl)⟩

end EmailNlp
